import Mathlib

/-!
Verification of the Textbook Generation & Export Pipeline specification
against the repository sources.

The repository ships the frontend of the pipeline (React/TypeScript under
frontend/src) together with design documents; the backend components
(parameter validator, structure planner, progress tracker, export
converter) are invoked over HTTP and are not part of the source tree.
Frontend functions are embedded directly from their TypeScript sources;
backend operations are modelled from the specification, and each such
definition says so in its doc comment.

Strings are modelled as Lean strings (sequences of characters); the
JavaScript string functions used by the sources (trim, toLowerCase,
lastIndexOf, substring, replace) are embedded on character lists.
-/

/-- Status enumeration, from frontend/src/types/textbook.ts
(enum TextbookStatus: draft, generating, completed, failed, exported). -/
inductive TextbookStatus where
  | draft : TextbookStatus
  | generating : TextbookStatus
  | completed : TextbookStatus
  | failed : TextbookStatus
  | exported : TextbookStatus
deriving DecidableEq, Repr

/-- Modelled from the spec: the Document status transition relation.
The backend state machine is not in the source tree; the spec (section 4.5)
and the repository data-model document give the transitions
draft to generating, generating to completed, generating to failed,
and completed to exported. -/
def allowedTransition : TextbookStatus → TextbookStatus → Bool
  | TextbookStatus.draft, TextbookStatus.generating => true
  | TextbookStatus.generating, TextbookStatus.completed => true
  | TextbookStatus.generating, TextbookStatus.failed => true
  | TextbookStatus.completed, TextbookStatus.exported => true
  | _, _ => false

/- ----------------------------------------------------------------
File download utilities, from frontend/src/services/utils/fileDownloader.ts
---------------------------------------------------------------- -/

/-- The character class removed by generateSafeFilename
(the regular expression of problematic characters). -/
def isUnsafeChar (c : Char) : Bool :=
  c ∈ ['<', '>', ':', '"', '/', '\\', '|', '?', '*']

/-- One character of the replace call: an unsafe character becomes
an underscore, every other character is kept. -/
def replaceUnsafeChar (c : Char) : Char :=
  if isUnsafeChar c then '_' else c

/-- Index of the last dot in a character list, as in
JavaScript lastIndexOf; none when no dot occurs. -/
def lastDotIdx : List Char → Option Nat
  | [] => none
  | c :: cs =>
    match lastDotIdx cs with
    | some i => some (i + 1)
    | none => if c = '.' then some 0 else none

/-- The local safeFilename value of generateSafeFilename after the
replace call: every unsafe character becomes an underscore. -/
def sanitizedChars (l : List Char) : List Char :=
  l.map replaceUnsafeChar

/-- generateSafeFilename on character lists, from fileDownloader.ts:
replace every unsafe character by an underscore; if the result is longer
than 200, keep the first 190 characters of the base name and append the
substring from the last dot on, and with no dot present truncate to 200. -/
def generateSafeFilenameList (l : List Char) : List Char :=
  if 200 < (sanitizedChars l).length then
    match lastDotIdx (sanitizedChars l) with
    | some i => ((sanitizedChars l).take i).take 190 ++ (sanitizedChars l).drop i
    | none => (sanitizedChars l).take 200
  else sanitizedChars l

/-- generateSafeFilename, from fileDownloader.ts. -/
def generateSafeFilename (filename : String) : String :=
  String.mk (generateSafeFilenameList filename.toList)

/-- Character-wise lowercasing, the embedding of toLowerCase. -/
def toLowerList (l : List Char) : List Char :=
  l.map Char.toLower

/-- The extension resolution shared verbatim by isSupportedFileType and
getMimeTypeForFile in fileDownloader.ts: lowercase the filename and take
the substring from the last dot; JavaScript substring with argument -1
yields the whole string, modelled by the none branch. -/
def fileExtension (filename : String) : String :=
  match lastDotIdx filename.toList with
  | some i => String.mk ((toLowerList filename.toList).drop i)
  | none => String.mk (toLowerList filename.toList)

/-- The supported extension list of isSupportedFileType. -/
def supportedTypes : List String :=
  [".pdf", ".docx", ".epub", ".html", ".txt",
   ".json", ".csv", ".xml", ".md", ".rtf"]

/-- isSupportedFileType, from fileDownloader.ts. -/
def isSupportedFileType (filename : String) : Bool :=
  supportedTypes.contains (fileExtension filename)

/-- The extension-to-MIME association of getMimeTypeForFile. -/
def mimeTypes : List (String × String) :=
  [(".pdf", "application/pdf"),
   (".docx", "application/vnd.openxmlformats-officedocument.wordprocessingml.document"),
   (".epub", "application/epub+zip"),
   (".html", "text/html"),
   (".txt", "text/plain"),
   (".json", "application/json"),
   (".csv", "text/csv"),
   (".xml", "application/xml"),
   (".md", "text/markdown"),
   (".rtf", "application/rtf")]

/-- getMimeTypeForFile, from fileDownloader.ts: look the extension up in
the association table, falling back to application/octet-stream. -/
def getMimeTypeForFile (filename : String) : String :=
  (List.lookup (fileExtension filename) mimeTypes).getD "application/octet-stream"

example : generateSafeFilename "a<b.txt" = "a_b.txt" := by decide
example : isSupportedFileType "A.PDF" = true := by decide
example : getMimeTypeForFile "A.PDF" = "application/pdf" := by decide
example : isSupportedFileType "a.doc" = false := by decide
example : getMimeTypeForFile "a.doc" = "application/octet-stream" := by decide

/-- C4: the Document status is one of exactly the five enumeration values,
every allowed transition follows the chain draft to generating to
completed or failed (with completed to exported the only further step),
no transition skips a state, and there is no transition out of failed. -/
theorem status_machine_characterization :
    (∀ s t : TextbookStatus, allowedTransition s t = true ↔
      ((s = TextbookStatus.draft ∧ t = TextbookStatus.generating) ∨
       (s = TextbookStatus.generating ∧
         (t = TextbookStatus.completed ∨ t = TextbookStatus.failed)) ∨
       (s = TextbookStatus.completed ∧ t = TextbookStatus.exported)))
    ∧ (∀ t : TextbookStatus, allowedTransition TextbookStatus.failed t = false)
    ∧ (∀ s : TextbookStatus,
        s = TextbookStatus.draft ∨ s = TextbookStatus.generating ∨
        s = TextbookStatus.completed ∨ s = TextbookStatus.failed ∨
        s = TextbookStatus.exported) := by
  refine ⟨?_, ?_, ?_⟩
  · intro s t
    cases s <;> cases t <;> simp [allowedTransition]
  · intro t
    cases t <;> rfl
  · intro s
    cases s <;> simp

/-- A 202-character filename whose extension (from the last dot) is
11 characters long. -/
def longExtensionExample : String :=
  String.mk (List.replicate 190 'a' ++ '.' :: List.replicate 11 'b')

set_option maxRecDepth 4000 in
/-- C9 counterexample: generateSafeFilename can return more than 200
characters, because truncation appends the whole extension after the
first 190 characters of the base name. -/
theorem generateSafeFilename_over_200 :
    200 < (generateSafeFilename longExtensionExample).length := by decide

/-- Every character of the sanitized list is safe. -/
theorem mem_sanitizedChars (l : List Char) :
    ∀ c ∈ sanitizedChars l, isUnsafeChar c = false := by
  intro c hc
  rcases List.mem_map.mp hc with ⟨a, _, rfl⟩
  unfold replaceUnsafeChar
  by_cases h : isUnsafeChar a = true
  · rw [if_pos h]
    decide
  · rw [if_neg h]
    simpa using h

/-- The result of generateSafeFilenameList only holds characters of the
sanitized input. -/
theorem generateSafeFilenameList_subset (l : List Char) :
    generateSafeFilenameList l ⊆ sanitizedChars l := by
  unfold generateSafeFilenameList
  split
  · split
    · exact List.append_subset.mpr
        ⟨(List.take_subset _ _).trans (List.take_subset _ _), List.drop_subset _ _⟩
    · exact List.take_subset _ _
  · exact fun c hc => hc

/-- C9 amended: the output of generateSafeFilename contains none of the
unsafe characters; when the sanitized name holds no dot the length never
exceeds 200; when it holds a dot and truncation occurs, the result is the
first 190 characters of the base name followed by the full extension
(the substring from the last dot), so the 200 bound holds only for
extensions of at most 10 characters. -/
theorem generateSafeFilename_amended (filename : String) :
    (∀ c ∈ (generateSafeFilename filename).toList, isUnsafeChar c = false)
    ∧ (lastDotIdx (sanitizedChars filename.toList) = none →
        (generateSafeFilename filename).length ≤ 200)
    ∧ (∀ i, lastDotIdx (sanitizedChars filename.toList) = some i →
        200 < (sanitizedChars filename.toList).length →
        (generateSafeFilename filename).toList
          = ((sanitizedChars filename.toList).take i).take 190
            ++ (sanitizedChars filename.toList).drop i) := by
  refine ⟨?_, ?_, ?_⟩
  · intro c hc
    exact mem_sanitizedChars filename.toList c
      (generateSafeFilenameList_subset filename.toList hc)
  · intro hnone
    show (generateSafeFilenameList filename.toList).length ≤ 200
    unfold generateSafeFilenameList
    rw [hnone]
    split
    · simp [List.length_take]
    · omega
  · intro i hi h200
    show generateSafeFilenameList filename.toList = _
    unfold generateSafeFilenameList
    rw [hi, if_pos h200]

/-- A 201-character filename with no dot at all. -/
def noDotLongExample : String :=
  String.mk (List.replicate 201 'a')

set_option maxRecDepth 4000 in
/-- Witness for the amended C9 theorem at a concrete dotless input. -/
theorem generateSafeFilename_amended_witness :
    (generateSafeFilename noDotLongExample).length ≤ 200 :=
  (generateSafeFilename_amended noDotLongExample).2.1 (by decide)

/-- C10: a filename is a supported file type exactly when its resolved
MIME type is not the application/octet-stream fallback; both functions
share the case-insensitive last-dot extension resolution. -/
theorem isSupportedFileType_iff_mime (filename : String) :
    isSupportedFileType filename
      = (getMimeTypeForFile filename != "application/octet-stream") := by
  unfold isSupportedFileType getMimeTypeForFile
  generalize fileExtension filename = e
  by_cases h1 : e = ".pdf"
  · subst h1; decide
  by_cases h2 : e = ".docx"
  · subst h2; decide
  by_cases h3 : e = ".epub"
  · subst h3; decide
  by_cases h4 : e = ".html"
  · subst h4; decide
  by_cases h5 : e = ".txt"
  · subst h5; decide
  by_cases h6 : e = ".json"
  · subst h6; decide
  by_cases h7 : e = ".csv"
  · subst h7; decide
  by_cases h8 : e = ".xml"
  · subst h8; decide
  by_cases h9 : e = ".md"
  · subst h9; decide
  by_cases h10 : e = ".rtf"
  · subst h10; decide
  have b1 : (e == ".pdf") = false := beq_eq_false_iff_ne.mpr h1
  have b2 : (e == ".docx") = false := beq_eq_false_iff_ne.mpr h2
  have b3 : (e == ".epub") = false := beq_eq_false_iff_ne.mpr h3
  have b4 : (e == ".html") = false := beq_eq_false_iff_ne.mpr h4
  have b5 : (e == ".txt") = false := beq_eq_false_iff_ne.mpr h5
  have b6 : (e == ".json") = false := beq_eq_false_iff_ne.mpr h6
  have b7 : (e == ".csv") = false := beq_eq_false_iff_ne.mpr h7
  have b8 : (e == ".xml") = false := beq_eq_false_iff_ne.mpr h8
  have b9 : (e == ".md") = false := beq_eq_false_iff_ne.mpr h9
  have b10 : (e == ".rtf") = false := beq_eq_false_iff_ne.mpr h10
  simp [supportedTypes, mimeTypes, List.lookup, List.contains,
    b1, b2, b3, b4, b5, b6, b7, b8, b9, b10]
  exact ⟨h1, h2, h3, h4, h5, h6, h7, h8, h9, h10⟩

/- ----------------------------------------------------------------
Generator form handlers, from
frontend/src/components/TextbookGenerator/GeneratorForm.tsx
---------------------------------------------------------------- -/

/-- JavaScript trim on character lists: strip whitespace from both ends. -/
def trimChars (l : List Char) : List Char :=
  ((l.dropWhile Char.isWhitespace).reverse.dropWhile Char.isWhitespace).reverse

/-- JavaScript String.trim. -/
def jsTrim (s : String) : String :=
  String.mk (trimChars s.toList)

/-- handleAddSource, from GeneratorForm.tsx: append the trimmed entry when
it is non-empty and not already present under exact string equality. -/
def handleAddSource (requiredSources : List String) (customSource : String) :
    List String :=
  if (jsTrim customSource != "") && !(requiredSources.contains (jsTrim customSource)) then
    requiredSources ++ [jsTrim customSource]
  else requiredSources

/-- handleAddExcludedTopic, from GeneratorForm.tsx: same logic as
handleAddSource, on the excludedTopics list. -/
def handleAddExcludedTopic (excludedTopics : List String) (customExcludedTopic : String) :
    List String :=
  if (jsTrim customExcludedTopic != "")
      && !(excludedTopics.contains (jsTrim customExcludedTopic)) then
    excludedTopics ++ [jsTrim customExcludedTopic]
  else excludedTopics

example : handleAddSource [] "  Wikipedia  " = ["Wikipedia"] := by decide
example : handleAddSource ["arXiv"] "   " = ["arXiv"] := by decide

/-- C6 counterexample: duplicate detection is exact (case-sensitive), so
two entries differing only in letter case are both retained, in
requiredSources as well as in excludedTopics. -/
theorem addEntry_case_sensitive_duplicates :
    handleAddSource (handleAddSource [] "Wikipedia") "wikipedia"
        = ["Wikipedia", "wikipedia"]
    ∧ handleAddExcludedTopic (handleAddExcludedTopic [] "Quantum") "quantum"
        = ["Quantum", "quantum"]
    ∧ toLowerList "wikipedia".toList = toLowerList "Wikipedia".toList
    ∧ "Wikipedia" ≠ "wikipedia" := by
  refine ⟨by decide, by decide, by decide, by decide⟩

/-- C6 amended: entries are stored trimmed, entries empty after trimming
are dropped silently, and duplicates are detected by exact (case-sensitive)
equality of the trimmed entry, so entries differing only in case are all
retained. -/
theorem addEntry_trimmed_dedup_amended (entries : List String) (input : String) :
    (jsTrim input = "" → handleAddSource entries input = entries
      ∧ handleAddExcludedTopic entries input = entries)
    ∧ (entries.contains (jsTrim input) = true →
        handleAddSource entries input = entries
        ∧ handleAddExcludedTopic entries input = entries)
    ∧ (jsTrim input ≠ "" → entries.contains (jsTrim input) = false →
        handleAddSource entries input = entries ++ [jsTrim input]
        ∧ handleAddExcludedTopic entries input = entries ++ [jsTrim input]) := by
  refine ⟨?_, ?_, ?_⟩
  · intro h
    unfold handleAddSource handleAddExcludedTopic
    simp [h]
  · intro h
    unfold handleAddSource handleAddExcludedTopic
    simp [h]
    intro _
    simpa using h
  · intro h1 h2
    unfold handleAddSource handleAddExcludedTopic
    simp [h1, h2]
    simpa using h2

/-- Witness for the amended C6 theorem at concrete inputs. -/
theorem addEntry_trimmed_dedup_amended_witness :
    (handleAddSource ["arXiv"] "   " = ["arXiv"]
      ∧ handleAddExcludedTopic ["arXiv"] "   " = ["arXiv"])
    ∧ (handleAddSource [] "  Wikipedia  " = ["Wikipedia"]
      ∧ handleAddExcludedTopic [] "  Wikipedia  " = ["Wikipedia"]) :=
  ⟨(addEntry_trimmed_dedup_amended ["arXiv"] "   ").1 (by decide),
   (addEntry_trimmed_dedup_amended [] "  Wikipedia  ").2.2 (by decide) (by decide)⟩

/- ----------------------------------------------------------------
Cancellation, from frontend/src/services/api/textbookGenerationApi.ts
---------------------------------------------------------------- -/

/-- Shape of the cancelGeneration return value. -/
structure CancelGenerationResponse where
  success : Bool
  message : String
deriving DecidableEq, Repr

/-- cancelGeneration, from textbookGenerationApi.ts: the function is a
mock that performs no backend request and returns success false with a
fixed not-supported message; since no request is issued, the document
status is unchanged, modelled by threading it through. -/
def cancelGeneration (textbookId : String) (docStatus : TextbookStatus) :
    CancelGenerationResponse × TextbookStatus :=
  (⟨false, "Cancel generation not yet supported by the backend"⟩, docStatus)

/-- C7 counterexample: a cancellation request against a generating
document leaves it in generating, does not transition it to failed, and
reports success false with a message that is not the word cancelled. -/
theorem cancelGeneration_counterexample :
    (cancelGeneration "tb-1" TextbookStatus.generating).2 = TextbookStatus.generating
    ∧ (cancelGeneration "tb-1" TextbookStatus.generating).2 ≠ TextbookStatus.failed
    ∧ (cancelGeneration "tb-1" TextbookStatus.generating).1.success = false
    ∧ (cancelGeneration "tb-1" TextbookStatus.generating).1.message ≠ "cancelled" := by
  refine ⟨rfl, by decide, rfl, by decide⟩

/-- C7 amended: cancellation is not implemented; cancelGeneration always
returns success false with the fixed not-supported message and leaves the
document status untouched. -/
theorem cancelGeneration_amended (textbookId : String) (s : TextbookStatus) :
    cancelGeneration textbookId s
      = (⟨false, "Cancel generation not yet supported by the backend"⟩, s) := rfl

/- ----------------------------------------------------------------
Parameter validation. The backend Parameter Validator is not in the
source tree; the enumerations and the parameter shape come from
frontend/src/types/textbook.ts and GeneratorForm.tsx, the validation
rules from the spec (section 4.1).
---------------------------------------------------------------- -/

/-- Target audience enumeration, option values of GeneratorForm.tsx. -/
inductive TargetAudience where
  | elementary | middleSchool | highSchool | undergraduate
  | graduate | professional | general
deriving DecidableEq, Repr

/-- Content depth enumeration, option values of GeneratorForm.tsx. -/
inductive ContentDepth where
  | shallow | medium | deep
deriving DecidableEq, Repr

/-- Writing style enumeration, option values of GeneratorForm.tsx. -/
inductive WritingStyle where
  | formal | conversational | technical | academic | casual
deriving DecidableEq, Repr

/-- Parse the audience option value string. -/
def parseTargetAudience : String → Option TargetAudience
  | "elementary" => some TargetAudience.elementary
  | "middle_school" => some TargetAudience.middleSchool
  | "high_school" => some TargetAudience.highSchool
  | "undergraduate" => some TargetAudience.undergraduate
  | "graduate" => some TargetAudience.graduate
  | "professional" => some TargetAudience.professional
  | "general" => some TargetAudience.general
  | _ => none

/-- Parse the depth option value string. -/
def parseContentDepth : String → Option ContentDepth
  | "shallow" => some ContentDepth.shallow
  | "medium" => some ContentDepth.medium
  | "deep" => some ContentDepth.deep
  | _ => none

/-- Parse the style option value string. -/
def parseWritingStyle : String → Option WritingStyle
  | "formal" => some WritingStyle.formal
  | "conversational" => some WritingStyle.conversational
  | "technical" => some WritingStyle.technical
  | "academic" => some WritingStyle.academic
  | "casual" => some WritingStyle.casual
  | _ => none

/-- The raw generation request, the GenerationParams shape of
frontend/src/types/textbook.ts before validation. -/
structure RawGenerationRequest where
  topic : String
  targetAudience : String
  numChapters : Int
  sectionsPerChapter : Int
  contentDepth : String
  writingStyle : String
  includeExamples : Bool
  includeExercises : Bool
  requiredSources : List String
  excludedTopics : List String
  customInstructions : String
deriving DecidableEq, Repr

/-- Validation error taxonomy, from the spec (section 4.1): out-of-range
numeric parameters fail with OutOfRange naming the field and bound,
unknown enumeration values fail with InvalidEnumValue. -/
inductive ValidationError where
  | invalidTopicLength : ValidationError
  | invalidEnumValue (field : String) : ValidationError
  | outOfRange (field : String) (lo hi : Int) : ValidationError
deriving DecidableEq, Repr

/-- The validated GenerationRequest of the spec data model. -/
structure GenerationRequest where
  topic : String
  targetAudience : TargetAudience
  numChapters : Nat
  sectionsPerChapter : Nat
  contentDepth : ContentDepth
  writingStyle : WritingStyle
  includeExamples : Bool
  includeExercises : Bool
  requiredSources : List String
  excludedTopics : List String
  customInstructions : String
deriving DecidableEq, Repr

/-- Case-insensitive key of a set entry. -/
def entryLower (s : String) : String :=
  String.mk (toLowerList s.toList)

/-- Modelled from the spec: requiredSources and excludedTopics entries are
trimmed and deduplicated case-insensitively, empty strings dropped
silently (section 4.1). -/
def normalizeEntries (l : List String) : List String :=
  l.foldl (fun acc s =>
    if jsTrim s == "" then acc
    else if acc.any (fun x => entryLower x == entryLower (jsTrim s)) then acc
    else acc ++ [jsTrim s]) []

/-- Modelled from the spec: the Parameter Validator (section 4.1). Topic
length 1 to 200; the three enumerations must parse; numChapters in 1 to
100 and sectionsPerChapter in 1 to 20, out-of-range failing with
OutOfRange naming the field and bound; entry sets normalized. -/
def validate (raw : RawGenerationRequest) : Except ValidationError GenerationRequest :=
  if ¬ (1 ≤ raw.topic.length ∧ raw.topic.length ≤ 200) then
    Except.error ValidationError.invalidTopicLength
  else
    match parseTargetAudience raw.targetAudience with
    | none => Except.error (ValidationError.invalidEnumValue "targetAudience")
    | some aud =>
      match parseContentDepth raw.contentDepth with
      | none => Except.error (ValidationError.invalidEnumValue "contentDepth")
      | some depth =>
        match parseWritingStyle raw.writingStyle with
        | none => Except.error (ValidationError.invalidEnumValue "writingStyle")
        | some style =>
          if ¬ (1 ≤ raw.numChapters ∧ raw.numChapters ≤ 100) then
            Except.error (ValidationError.outOfRange "numChapters" 1 100)
          else if ¬ (1 ≤ raw.sectionsPerChapter ∧ raw.sectionsPerChapter ≤ 20) then
            Except.error (ValidationError.outOfRange "sectionsPerChapter" 1 20)
          else Except.ok
            { topic := raw.topic
              targetAudience := aud
              numChapters := raw.numChapters.toNat
              sectionsPerChapter := raw.sectionsPerChapter.toNat
              contentDepth := depth
              writingStyle := style
              includeExamples := raw.includeExamples
              includeExercises := raw.includeExercises
              requiredSources := normalizeEntries raw.requiredSources
              excludedTopics := normalizeEntries raw.excludedTopics
              customInstructions := raw.customInstructions }

/-- C2: validation rejects numChapters outside 1 to 100 and
sectionsPerChapter outside 1 to 20 with OutOfRange naming the field and
bound, and accepts in-range values, whenever topic and the enumeration
fields are themselves valid. -/
theorem validate_range_checks (raw : RawGenerationRequest)
    (htopic : 1 ≤ raw.topic.length ∧ raw.topic.length ≤ 200)
    (haud : (parseTargetAudience raw.targetAudience).isSome = true)
    (hdepth : (parseContentDepth raw.contentDepth).isSome = true)
    (hstyle : (parseWritingStyle raw.writingStyle).isSome = true) :
    (¬ (1 ≤ raw.numChapters ∧ raw.numChapters ≤ 100) →
      validate raw = Except.error (ValidationError.outOfRange "numChapters" 1 100))
    ∧ ((1 ≤ raw.numChapters ∧ raw.numChapters ≤ 100) →
        ¬ (1 ≤ raw.sectionsPerChapter ∧ raw.sectionsPerChapter ≤ 20) →
        validate raw = Except.error (ValidationError.outOfRange "sectionsPerChapter" 1 20))
    ∧ ((1 ≤ raw.numChapters ∧ raw.numChapters ≤ 100) →
        (1 ≤ raw.sectionsPerChapter ∧ raw.sectionsPerChapter ≤ 20) →
        (validate raw).isOk = true) := by
  rcases Option.isSome_iff_exists.mp haud with ⟨aud, ha⟩
  rcases Option.isSome_iff_exists.mp hdepth with ⟨dep, hd⟩
  rcases Option.isSome_iff_exists.mp hstyle with ⟨sty, hs⟩
  unfold validate
  rw [if_neg (not_not_intro htopic), ha, hd, hs]
  dsimp only
  refine ⟨?_, ?_, ?_⟩
  · intro h
    rw [if_pos h]
  · intro h1 h2
    rw [if_neg (not_not_intro h1), if_pos h2]
  · intro h1 h2
    rw [if_neg (not_not_intro h1), if_neg (not_not_intro h2)]
    rfl

/-- An otherwise-valid raw request asking for 101 chapters. -/
def rawRequest101 : RawGenerationRequest :=
  { topic := "Cell Biology"
    targetAudience := "undergraduate"
    numChapters := 101
    sectionsPerChapter := 3
    contentDepth := "medium"
    writingStyle := "academic"
    includeExamples := true
    includeExercises := false
    requiredSources := []
    excludedTopics := []
    customInstructions := "" }

/-- The same raw request asking for 100 chapters. -/
def rawRequest100 : RawGenerationRequest :=
  { rawRequest101 with numChapters := 100 }

/-- Witness for the C2 theorem: 101 chapters is rejected with OutOfRange
on numChapters, 100 chapters is accepted. -/
theorem validate_range_checks_witness :
    validate rawRequest101
      = Except.error (ValidationError.outOfRange "numChapters" 1 100)
    ∧ (validate rawRequest100).isOk = true :=
  ⟨(validate_range_checks rawRequest101 (by decide) (by decide) (by decide)
      (by decide)).1 (by decide),
   (validate_range_checks rawRequest100 (by decide) (by decide) (by decide)
      (by decide)).2.2 (by decide) (by decide)⟩

/- ----------------------------------------------------------------
Structure planning and the Document data model. The backend Structure
Planner is not in the source tree; the Document, Chapter and Section
shapes come from frontend/src/types/textbook.ts and the spec data model,
the planning algorithm from the spec (section 4.3).
---------------------------------------------------------------- -/

/-- Section content type enumeration, from frontend/src/types/textbook.ts. -/
inductive ContentType where
  | text | example | exercise | summary | introduction | conclusion
deriving DecidableEq, Repr

/-- A section of a chapter: dotted address derived from the parent
chapter ordinal, title, content type and content. -/
structure Section where
  address : String
  title : String
  contentType : ContentType
  content : String
deriving DecidableEq, Repr

/-- A chapter: 1-based ordinal, title, ordered sections, learning
objectives and a derived summary. -/
structure Chapter where
  ordinal : Nat
  title : String
  sections : List Section
  learningObjectives : List String
  summary : String
deriving DecidableEq, Repr

/-- The generated Document of the spec data model. -/
structure Document where
  id : String
  title : String
  description : String
  status : TextbookStatus
  parameters : GenerationRequest
  chapters : List Chapter
  exportedFormats : List String
deriving DecidableEq, Repr

/-- The dotted section address: chapter ordinal, a dot, section ordinal. -/
def sectionAddress (c s : Nat) : String :=
  toString c ++ "." ++ toString s

/-- Modelled from the spec: the deterministic provisional chapter title,
derived from the topic and a positional descriptor (section 4.3). -/
def chapterTitle (r : GenerationRequest) (ci : Nat) : String :=
  r.topic ++ " - Part " ++ toString (ci + 1)

/-- Modelled from the spec: the deterministic provisional section title. -/
def sectionTitle (r : GenerationRequest) (ci si : Nat) : String :=
  chapterTitle r ci ++ ", Topic " ++ toString (si + 1)

/-- Modelled from the spec: the Structure Planner (section 4.3). Allocate
exactly numChapters chapters with ordinals 1 to N, each holding exactly
sectionsPerChapter sections addressed chapter-dot-section, titles derived
deterministically, content empty, status draft. -/
def plan (r : GenerationRequest) : Document :=
  { id := "textbook-" ++ r.topic
    title := r.topic
    description := "Generated textbook on " ++ r.topic
    status := TextbookStatus.draft
    parameters := r
    chapters := (List.range r.numChapters).map (fun ci =>
      { ordinal := ci + 1
        title := chapterTitle r ci
        sections := (List.range r.sectionsPerChapter).map (fun si =>
          { address := sectionAddress (ci + 1) (si + 1)
            title := sectionTitle r ci si
            contentType := ContentType.text
            content := "" })
        learningObjectives := []
        summary := "" })
    exportedFormats := [] }

/-- C1: for a valid request, plan produces exactly numChapters chapters
whose ordinals are the contiguous sequence 1 to N, each with exactly
sectionsPerChapter sections addressed chapter-dot-section. -/
theorem plan_structure (r : GenerationRequest)
    (hv : 1 ≤ r.numChapters ∧ r.numChapters ≤ 100
      ∧ 1 ≤ r.sectionsPerChapter ∧ r.sectionsPerChapter ≤ 20) :
    (plan r).chapters.length = r.numChapters
    ∧ (∀ i (h : i < (plan r).chapters.length),
        ((plan r).chapters.get ⟨i, h⟩).ordinal = i + 1
        ∧ ((plan r).chapters.get ⟨i, h⟩).sections.length = r.sectionsPerChapter
        ∧ ∀ j (h2 : j < ((plan r).chapters.get ⟨i, h⟩).sections.length),
            (((plan r).chapters.get ⟨i, h⟩).sections.get ⟨j, h2⟩).address
              = sectionAddress (i + 1) (j + 1)) := by
  refine ⟨by simp [plan], ?_⟩
  intro i h
  refine ⟨?_, ?_, ?_⟩
  · simp [plan]
  · simp [plan]
  · intro j h2
    simp [plan]

/-- A concrete validated request: 3 chapters of 2 sections. -/
def exampleRequest : GenerationRequest :=
  { topic := "Cell Biology"
    targetAudience := TargetAudience.undergraduate
    numChapters := 3
    sectionsPerChapter := 2
    contentDepth := ContentDepth.shallow
    writingStyle := WritingStyle.academic
    includeExamples := true
    includeExercises := false
    requiredSources := []
    excludedTopics := []
    customInstructions := "" }

/-- Witness for the C1 theorem at the concrete 3-by-2 request. -/
theorem plan_structure_witness :
    (plan exampleRequest).chapters.length = exampleRequest.numChapters :=
  (plan_structure exampleRequest (by decide)).1

/- ----------------------------------------------------------------
Export. The backend Export Converter is not in the source tree; the
error taxonomy and precondition come from the spec (section 4.8), the
format set from the ExportOptions component defaults.
---------------------------------------------------------------- -/

/-- Export-time errors, from the spec: DocumentNotReady when the document
is not completed, UnsupportedFormat naming the requested value and the
supported set. -/
inductive ExportError where
  | documentNotReady : ExportError
  | unsupportedFormat (requested : String) (supported : List String) : ExportError
deriving DecidableEq, Repr

/-- The export artifact of the spec data model. -/
structure ExportArtifact where
  documentId : String
  format : String
  byteSize : Nat
  locator : String
deriving DecidableEq, Repr

/-- The supported export format names, the defaults of ExportOptions. -/
def supportedExportFormats : List String :=
  ["PDF", "DOCX", "EPUB", "HTML", "TXT"]

/-- A deterministic flattening of a document to text, used for the
artifact size. -/
def renderDocument (doc : Document) : String :=
  doc.chapters.foldl (fun acc c =>
    acc ++ c.title ++ c.sections.foldl (fun a s => a ++ s.title ++ s.content) "")
    doc.title

/-- Modelled from the spec: the Export Converter (section 4.8). Rejects a
document whose status is not completed with DocumentNotReady; rejects an
unknown format with UnsupportedFormat; otherwise produces an artifact. -/
def exportDocument (doc : Document) (format : String) :
    Except ExportError ExportArtifact :=
  if doc.status ≠ TextbookStatus.completed then
    Except.error ExportError.documentNotReady
  else if ¬ supportedExportFormats.contains format then
    Except.error (ExportError.unsupportedFormat format supportedExportFormats)
  else Except.ok
    { documentId := doc.id
      format := format
      byteSize := (renderDocument doc).length
      locator := doc.id ++ "." ++ format }

/-- C3: export of a document that is not completed (in particular one
still generating) fails with DocumentNotReady and produces no artifact;
an export that succeeds was performed on a completed document. -/
theorem export_requires_completed (doc : Document) (format : String) :
    (doc.status ≠ TextbookStatus.completed →
      exportDocument doc format = Except.error ExportError.documentNotReady)
    ∧ (doc.status = TextbookStatus.generating →
      exportDocument doc format = Except.error ExportError.documentNotReady)
    ∧ ((exportDocument doc format).isOk = true →
      doc.status = TextbookStatus.completed) := by
  refine ⟨?_, ?_, ?_⟩
  · intro h
    unfold exportDocument
    rw [if_pos h]
  · intro h
    unfold exportDocument
    rw [if_pos (by rw [h]; exact fun hc => TextbookStatus.noConfusion hc)]
  · intro h
    by_contra hne
    unfold exportDocument at h
    rw [if_pos hne] at h
    exact Bool.noConfusion h

/-- A concrete in-flight document: the planned 3-by-2 example, now
generating. -/
def generatingDoc : Document :=
  { plan exampleRequest with status := TextbookStatus.generating }

/-- Witness for the C3 theorem: exporting the generating document as PDF
returns DocumentNotReady. -/
theorem export_requires_completed_witness :
    exportDocument generatingDoc "PDF" = Except.error ExportError.documentNotReady :=
  (export_requires_completed generatingDoc "PDF").2.1 rfl

/- ----------------------------------------------------------------
Progress tracking. The backend Progress Tracker is not in the source
tree; the record shape comes from the GenerationStatus and
ProgressMessage interfaces of frontend/src/types/textbook.ts, the
operations from the spec (section 4.7).
---------------------------------------------------------------- -/

/-- The per-document progress record: status, fraction complete in 0 to 1,
message, and the fixed per-unit delta computed at start time. -/
structure ProgressRecord where
  documentId : String
  status : TextbookStatus
  fractionComplete : Rat
  message : String
  unitDelta : Rat
deriving DecidableEq, Repr

/-- Modelled from the spec: start creates the record with fraction 0 and
the per-unit delta one over the planned total unit count (section 4.7). -/
def startProgress (documentId : String) (totalUnits : Nat) : ProgressRecord :=
  { documentId := documentId
    status := TextbookStatus.generating
    fractionComplete := 0
    message := "started"
    unitDelta := 1 / (totalUnits : Rat) }

/-- Modelled from the spec: advance adds the fixed per-unit delta,
clamped so the fraction never exceeds 1 even under duplicate calls. -/
def advanceProgress (r : ProgressRecord) (message : String) : ProgressRecord :=
  { r with fractionComplete := min (r.fractionComplete + r.unitDelta) 1
           message := message }

/-- Modelled from the spec: fail marks the record failed, keeping the
fraction. -/
def failProgress (r : ProgressRecord) (message : String) : ProgressRecord :=
  { r with status := TextbookStatus.failed, message := message }

/-- Modelled from the spec: complete marks the record completed with
fraction 1. -/
def completeProgress (r : ProgressRecord) : ProgressRecord :=
  { r with status := TextbookStatus.completed, fractionComplete := 1 }

/-- One tracker mutation. -/
inductive ProgressOp where
  | advance (message : String) : ProgressOp
  | fail (message : String) : ProgressOp
  | complete : ProgressOp
deriving DecidableEq, Repr

/-- Apply one tracker mutation to the record. -/
def applyProgressOp (r : ProgressRecord) : ProgressOp → ProgressRecord
  | ProgressOp.advance m => advanceProgress r m
  | ProgressOp.fail m => failProgress r m
  | ProgressOp.complete => completeProgress r

/-- A serialized trace of tracker mutations, the per-key serialization of
the spec concurrency model. -/
def runProgress (r : ProgressRecord) (ops : List ProgressOp) : ProgressRecord :=
  ops.foldl applyProgressOp r

/-- One tracker step neither decreases the fraction nor pushes it above 1,
and keeps the per-unit delta. -/
theorem progress_step_bounds (r : ProgressRecord) (op : ProgressOp)
    (h1 : r.fractionComplete ≤ 1) (h2 : 0 ≤ r.unitDelta) :
    r.fractionComplete ≤ (applyProgressOp r op).fractionComplete
    ∧ (applyProgressOp r op).fractionComplete ≤ 1
    ∧ (applyProgressOp r op).unitDelta = r.unitDelta := by
  cases op with
  | advance m =>
    refine ⟨?_, ?_, rfl⟩
    · show r.fractionComplete ≤ min (r.fractionComplete + r.unitDelta) 1
      rcases le_or_lt (r.fractionComplete + r.unitDelta) 1 with h | h
      · rw [min_eq_left h]
        linarith
      · rw [min_eq_right h.le]
        exact h1
    · exact min_le_right _ _
  | fail m => exact ⟨le_refl _, h1, rfl⟩
  | complete => exact ⟨h1, le_refl _, rfl⟩

/-- Along any trace the fraction is monotone and stays at most 1. -/
theorem progress_run_bounds (r : ProgressRecord) (ops : List ProgressOp)
    (h1 : r.fractionComplete ≤ 1) (h2 : 0 ≤ r.unitDelta) :
    r.fractionComplete ≤ (runProgress r ops).fractionComplete
    ∧ (runProgress r ops).fractionComplete ≤ 1
    ∧ 0 ≤ (runProgress r ops).unitDelta := by
  induction ops generalizing r with
  | nil => exact ⟨le_refl _, h1, h2⟩
  | cons op rest ih =>
    have hstep := progress_step_bounds r op h1 h2
    have hrest := ih (applyProgressOp r op) hstep.2.1 (hstep.2.2 ▸ h2)
    exact ⟨hstep.1.trans hrest.1, hrest.2.1, hrest.2.2⟩

/-- C5: for a single document started with any planned unit count, the
fractions observed at any two increasing sample points of a serialized
mutation trace form a non-decreasing pair, and no observed fraction ever
exceeds 1, duplicate advance calls included (clamping). -/
theorem fractionComplete_monotone_clamped (documentId : String)
    (totalUnits : Nat) (ops tail : List ProgressOp) :
    (runProgress (startProgress documentId totalUnits) ops).fractionComplete
      ≤ (runProgress (startProgress documentId totalUnits) (ops ++ tail)).fractionComplete
    ∧ (runProgress (startProgress documentId totalUnits) ops).fractionComplete ≤ 1 := by
  have hstart1 : (startProgress documentId totalUnits).fractionComplete ≤ 1 := by
    simp [startProgress]
  have hstart2 : 0 ≤ (startProgress documentId totalUnits).unitDelta := by
    simp only [startProgress]
    positivity
  have hops := progress_run_bounds (startProgress documentId totalUnits) ops hstart1 hstart2
  refine ⟨?_, hops.2.1⟩
  have happ : runProgress (startProgress documentId totalUnits) (ops ++ tail)
      = runProgress (runProgress (startProgress documentId totalUnits) ops) tail := by
    simp [runProgress, List.foldl_append]
  rw [happ]
  exact (progress_run_bounds _ tail hops.2.1 hops.2.2).1

/- ----------------------------------------------------------------
Preview. The TextbookPreview and ChapterPreview shapes come from
frontend/src/types/textbook.ts; the loadPreview guard and the rendering
come from PreviewPanel.tsx; the backend preview endpoint is modelled
from the spec (section 6).
---------------------------------------------------------------- -/

/-- The option value string of an audience, from GeneratorForm.tsx. -/
def targetAudienceString : TargetAudience → String
  | TargetAudience.elementary => "elementary"
  | TargetAudience.middleSchool => "middle_school"
  | TargetAudience.highSchool => "high_school"
  | TargetAudience.undergraduate => "undergraduate"
  | TargetAudience.graduate => "graduate"
  | TargetAudience.professional => "professional"
  | TargetAudience.general => "general"

/-- The option value string of a depth, from GeneratorForm.tsx. -/
def contentDepthString : ContentDepth → String
  | ContentDepth.shallow => "shallow"
  | ContentDepth.medium => "medium"
  | ContentDepth.deep => "deep"

/-- The option value string of a style, from GeneratorForm.tsx. -/
def writingStyleString : WritingStyle → String
  | WritingStyle.formal => "formal"
  | WritingStyle.conversational => "conversational"
  | WritingStyle.technical => "technical"
  | WritingStyle.academic => "academic"
  | WritingStyle.casual => "casual"

/-- The TextbookPreview response shape, from frontend/src/types/textbook.ts. -/
structure TextbookPreview where
  textbookId : String
  title : String
  description : String
  status : TextbookStatus
  preview : String
  fullContentAvailable : Bool
  contentLength : Nat
  totalChapters : Nat
  targetAudience : String
  contentDepth : String
  writingStyle : String
deriving DecidableEq, Repr

/-- The ChapterPreview response shape, from frontend/src/types/textbook.ts. -/
structure ChapterPreview where
  textbookId : String
  chapterNumber : Nat
  title : String
  preview : String
  targetAudience : String
  contentDepth : String
deriving DecidableEq, Repr

/-- The excerpt of a document: the first 500 characters of the rendered
content, as in the frontend content preview. -/
def previewExcerpt (doc : Document) : String :=
  String.mk ((renderDocument doc).toList.take 500)

/-- The excerpt of one chapter. -/
def chapterExcerpt (doc : Document) (chapterNumber : Nat) : String :=
  match (doc.chapters.filter (fun c => c.ordinal == chapterNumber)).head? with
  | some c =>
    String.mk ((c.sections.foldl (fun a s => a ++ s.title ++ s.content)
      c.title).toList.take 500)
  | none => ""

/-- Modelled from the spec: GET preview of a document returns a read-only
excerpt of content, not gated on full completion (section 6); applied to
a document in any status. -/
def getTextbookPreview (doc : Document) : TextbookPreview :=
  { textbookId := doc.id
    title := doc.title
    description := doc.description
    status := doc.status
    preview := previewExcerpt doc
    fullContentAvailable := doc.status == TextbookStatus.completed
    contentLength := (renderDocument doc).length
    totalChapters := doc.chapters.length
    targetAudience := targetAudienceString doc.parameters.targetAudience
    contentDepth := contentDepthString doc.parameters.contentDepth
    writingStyle := writingStyleString doc.parameters.writingStyle }

/-- Modelled from the spec: GET preview of one chapter, equally not gated
on completion. -/
def getChapterPreview (doc : Document) (chapterNumber : Nat) : ChapterPreview :=
  { textbookId := doc.id
    chapterNumber := chapterNumber
    title := doc.title
    preview := chapterExcerpt doc chapterNumber
    targetAudience := targetAudienceString doc.parameters.targetAudience
    contentDepth := contentDepthString doc.parameters.contentDepth }

/-- The guard of loadPreview in PreviewPanel.tsx: the fetch happens
whenever a textbookId is present; the document status is never
consulted. -/
def shouldLoadPreview (textbookId : Option String) : Bool :=
  textbookId.isSome

/-- The rendering of PreviewPanel.tsx: when a preview is present its
excerpt text is rendered, whatever the status. -/
def renderedExcerpt (p : Option TextbookPreview) : Option String :=
  match p with
  | some pv => some pv.preview
  | none => none

/-- C8: preview is fetched for every present textbookId and returns the
read-only excerpt for a document in any status, including one that has
not reached completion; the rendered text never depends on the status. -/
theorem preview_not_gated (doc : Document) (id : String) (chapterNumber : Nat) :
    (getTextbookPreview doc).preview = previewExcerpt doc
    ∧ (getChapterPreview doc chapterNumber).preview = chapterExcerpt doc chapterNumber
    ∧ (∀ s : TextbookStatus,
        (getTextbookPreview { doc with status := s }).preview = previewExcerpt doc
        ∧ renderedExcerpt (some (getTextbookPreview { doc with status := s }))
            = some (previewExcerpt doc))
    ∧ shouldLoadPreview (some id) = true := by
  refine ⟨rfl, rfl, ?_, rfl⟩
  intro s
  exact ⟨rfl, rfl⟩
